import Mathlib

/-!
Verification of the streaming protocol client of the sira-console
repository (src/src/network/socket_client.py together with
src/src/network/protocol.py).

Bytes are modelled as natural numbers and byte strings as lists of
naturals.  The behaviour of the underlying TCP socket, as seen by one
call site, is modelled by a list of read events: a chunk of available
bytes (an empty chunk is the 0-byte read with which recv signals that
the peer closed the stream), a read timeout (socket.timeout), or a read
fault (any other exception raised by recv).  A recv of k bytes takes at
most k bytes from the front chunk and leaves the remainder pending,
exactly as a TCP receive buffer does.

Qt signal emissions and socket operations performed by the client are
recorded as explicit actions, so theorems can count emissions, socket
closes and socket writes.  Payload decoding (cv2.imdecode, json.loads)
is kept abstract as a function from payload bytes to an optional decoded
value; a result of none covers both a raised exception and the
frame-is-None case of _handle_frame.
-/

namespace SiraConsole

/-- Message type identifier FRAME = 0x01 (protocol.py, class MessageType). -/
def MessageType.FRAME : Nat := 0x01

/-- Message type identifier TELEMETRY = 0x02 (protocol.py). -/
def MessageType.TELEMETRY : Nat := 0x02

/-- Message type identifier DETECTION = 0x03 (protocol.py). -/
def MessageType.DETECTION : Nat := 0x03

/-- Message type identifier SERVO_STATE = 0x04 (protocol.py). -/
def MessageType.SERVO_STATE : Nat := 0x04

/-- Message type identifier COMMAND = 0xFF (protocol.py). -/
def MessageType.COMMAND : Nat := 0xFF

/-- Big-endian unsigned 32-bit encoding of a length, as produced by
struct.pack with format !I. -/
def encodeBE32 (n : Nat) : List Nat :=
  [n / 16777216 % 256, n / 65536 % 256, n / 256 % 256, n % 256]

/-- Big-endian unsigned 32-bit decoding of 4 bytes, as performed by
struct.unpack with format !I. -/
def decodeBE32 : List Nat → Nat
  | [b0, b1, b2, b3] => ((b0 * 256 + b1) * 256 + b2) * 256 + b3
  | _ => 0

/-- A full wire message: one tag byte, the payload length as a
big-endian unsigned 32-bit integer, then the payload bytes. -/
def encodeMsg (tag : Nat) (payload : List Nat) : List Nat :=
  tag :: (encodeBE32 payload.length ++ payload)

/-- One outcome of an underlying socket.recv call, as observed by
_recv_exact: a chunk of bytes (empty chunk = peer closed), a raised
socket.timeout, or any other raised exception. -/
inductive RecvEvent
  | chunk (bs : List Nat)
  | timeout
  | fault
deriving DecidableEq

/-- SocketClient._recv_exact (socket_client.py lines 130-151): loop
accumulating bytes until n have been collected.  A timeout is retried,
any other exception and a 0-byte read both make the helper return the
empty byte string.  The result pairs the returned byte string with the
socket events still pending; none models a recv that blocks forever
because no further event is available. -/
def recvExactAux (n : Nat) (data : List Nat) :
    List RecvEvent → Option (List Nat × List RecvEvent)
  | [] => if n ≤ data.length then some (data, []) else none
  | e :: rest =>
    if n ≤ data.length then some (data, e :: rest)
    else
      match e with
      | RecvEvent.timeout => recvExactAux n data rest
      | RecvEvent.fault => some ([], rest)
      | RecvEvent.chunk bs =>
        if bs = [] then some ([], rest)
        else if bs.length ≤ n - data.length then recvExactAux n (data ++ bs) rest
        else some (data ++ bs.take (n - data.length),
                   RecvEvent.chunk (bs.drop (n - data.length)) :: rest)

/-- _recv_exact entered with data = the empty byte string. -/
def recvExact (n : Nat) (evs : List RecvEvent) :
    Option (List Nat × List RecvEvent) :=
  recvExactAux n [] evs

/-- Result of one header-plus-payload read in _receive_loop: either one
of the two break paths (empty header or empty payload) or a parsed
message ready for dispatch. -/
inductive ReadResult
  | eof (rest : List RecvEvent)
  | msg (tag : Nat) (payload : List Nat) (rest : List RecvEvent)
deriving DecidableEq

/-- One header-plus-payload read of _receive_loop (socket_client.py
lines 100-112): read exactly 5 header bytes, break on an empty result,
unpack the tag byte and the big-endian length, read exactly that many
payload bytes, break on an empty result. -/
def readMessage (evs : List RecvEvent) : Option ReadResult :=
  match recvExact 5 evs with
  | none => none
  | some (header, evs1) =>
    if header = [] then some (ReadResult.eof evs1)
    else
      match recvExact (decodeBE32 (header.drop 1)) evs1 with
      | none => none
      | some (payload, evs2) =>
        if payload = [] then some (ReadResult.eof evs2)
        else some (ReadResult.msg (header.headD 0) payload evs2)

/-- Tag and payload of a parsed message, if any. -/
def msgOf : Option ReadResult → Option (Nat × List Nat)
  | some (ReadResult.msg tag payload _) => some (tag, payload)
  | _ => none

/-- A Qt signal emission of SocketClient. -/
inductive Emit
  | connectionChanged (b : Bool)
  | errorOccurred (msg : String)
  | frameReceived (frame : List Nat)
  | telemetryReceived (data : List Nat)
deriving DecidableEq

/-- An observable action of the client: socket creation, close and
write, starting the receiver thread, and signal emission. -/
inductive Action
  | sockCreate (sid : Nat)
  | sockClose (sid : Nat)
  | sockSend (sid : Nat) (bytes : List Nat)
  | startThread
  | signal (e : Emit)
deriving DecidableEq

/-- The mutable state of SocketClient: the stored socket handle (as an
allocation id), the running flag, host, port, and the id the next
created socket will get. -/
structure ClientState where
  sock : Option Nat
  running : Bool
  host : String
  port : Nat
  nextId : Nat
deriving DecidableEq

/-- State after SocketClient.__init__. -/
def initClient : ClientState :=
  { sock := none, running := false, host := "", port := 0, nextId := 0 }

/-- A client that is connected: socket 0 held and running set. -/
def connectedClient : ClientState :=
  { sock := some 0, running := true, host := "", port := 0, nextId := 1 }

/-- SocketClient.is_connected: running flag set and a socket held. -/
def is_connected (st : ClientState) : Bool :=
  st.running && st.sock.isSome

/-- Outcome of the blocking socket.connect call inside
SocketClient.connect. -/
inductive ConnectOutcome
  | success
  | timeout
  | refused
  | failure (msg : String)
deriving DecidableEq

/-- SocketClient.connect (socket_client.py lines 32-74).  host, port and
the freshly created socket are assigned before the blocking connect, so
they keep their new values on every failure path; the running flag is
only assigned on success.  No close is ever performed here. -/
def connect (st : ClientState) (host : String) (port : Nat)
    (outcome : ConnectOutcome) : ClientState × List Action × Bool :=
  let sid := st.nextId
  let st1 : ClientState :=
    { st with host := host, port := port, sock := some sid,
              nextId := st.nextId + 1 }
  match outcome with
  | ConnectOutcome.success =>
      ({ st1 with running := true },
       [Action.sockCreate sid, Action.startThread,
        Action.signal (Emit.connectionChanged true)], true)
  | ConnectOutcome.timeout =>
      (st1, [Action.sockCreate sid,
             Action.signal (Emit.errorOccurred "Connection timeout")], false)
  | ConnectOutcome.refused =>
      (st1, [Action.sockCreate sid,
             Action.signal
               (Emit.errorOccurred "Connection refused - is Pi server running?")],
       false)
  | ConnectOutcome.failure m =>
      (st1, [Action.sockCreate sid,
             Action.signal (Emit.errorOccurred ("Connection failed: " ++ m))],
       false)

/-- SocketClient.disconnect (socket_client.py lines 76-89): clear the
running flag, close and clear the socket if one is held, and always
emit connection_changed(False). -/
def disconnect (st : ClientState) : ClientState × List Action :=
  match st.sock with
  | some sid =>
      ({ st with running := false, sock := none },
       [Action.sockClose sid, Action.signal (Emit.connectionChanged false)])
  | none =>
      ({ st with running := false },
       [Action.signal (Emit.connectionChanged false)])

/-- SocketClient.send_command (socket_client.py lines 183-199).
cmdBytes is the UTF-8 JSON serialization of the command mapping;
sendErr carries the text of an exception raised by sendall, if any.
A JSON byte length that does not fit the !I format makes struct.pack
raise, which the except branch reports as a send failure. -/
def send_command (st : ClientState) (cmdBytes : List Nat)
    (sendErr : Option String) : ClientState × List Action :=
  if is_connected st then
    match st.sock with
    | none => (st, [])
    | some sid =>
      if cmdBytes.length < 4294967296 then
        match sendErr with
        | none =>
            (st, [Action.sockSend sid (encodeMsg MessageType.COMMAND cmdBytes)])
        | some m =>
            (st, [Action.signal (Emit.errorOccurred ("Send failed: " ++ m))])
      else
        (st, [Action.signal
                (Emit.errorOccurred "Send failed: argument out of range")])
  else
    (st, [Action.signal (Emit.errorOccurred "Not connected")])

/-- SocketClient._handle_frame (lines 153-168): decode the payload as an
image; emit frame_received only when decoding yields a frame.  A decode
exception and a None result both produce no emission. -/
def handle_frame (decodeImage : List Nat → Option (List Nat))
    (payload : List Nat) : List Action :=
  match decodeImage payload with
  | some frame => [Action.signal (Emit.frameReceived frame)]
  | none => []

/-- SocketClient._handle_telemetry (lines 170-181): decode the payload
as UTF-8 JSON; emit telemetry_received on success, nothing on failure. -/
def handle_telemetry (decodeJson : List Nat → Option (List Nat))
    (payload : List Nat) : List Action :=
  match decodeJson payload with
  | some data => [Action.signal (Emit.telemetryReceived data)]
  | none => []

/-- Dispatch of _receive_loop (lines 114-120): FRAME and TELEMETRY go to
their handlers, every other tag is only logged. -/
def dispatchMsg (decodeImage decodeJson : List Nat → Option (List Nat))
    (tag : Nat) (payload : List Nat) : List Action :=
  if tag = MessageType.FRAME then handle_frame decodeImage payload
  else if tag = MessageType.TELEMETRY then handle_telemetry decodeJson payload
  else []

/-- The body of the while loop of _receive_loop, iterated on the pending
socket events; fuel bounds the number of iterations, none meaning the
loop was still going (or blocked) when the fuel ran out. -/
def loopBody (decodeImage decodeJson : List Nat → Option (List Nat)) :
    Nat → List RecvEvent → Option (List Action × List RecvEvent)
  | 0, _ => none
  | fuel + 1, evs =>
    match readMessage evs with
    | none => none
    | some (ReadResult.eof rest) => some ([], rest)
    | some (ReadResult.msg tag payload rest) =>
        match loopBody decodeImage decodeJson fuel rest with
        | none => none
        | some (acts, rest2) =>
            some (dispatchMsg decodeImage decodeJson tag payload ++ acts, rest2)

/-- SocketClient._receive_loop (lines 95-128): run the while loop while
the running flag is set, then always run the disconnect sequence from
the finally block. -/
def runLoop (decodeImage decodeJson : List Nat → Option (List Nat))
    (fuel : Nat) (st : ClientState) (evs : List RecvEvent) :
    Option (ClientState × List Action) :=
  if st.running then
    match loopBody decodeImage decodeJson fuel evs with
    | none => none
    | some (acts, _) =>
        some ((disconnect st).1, acts ++ (disconnect st).2)
  else
    some ((disconnect st).1, (disconnect st).2)

/-- Number of error_occurred emissions in an action list. -/
def countErr (acts : List Action) : Nat :=
  acts.countP fun a =>
    match a with
    | Action.signal (Emit.errorOccurred _) => true
    | _ => false

/-- Number of connection_changed(False) emissions in an action list. -/
def countConnFalse (acts : List Action) : Nat :=
  acts.countP fun a =>
    match a with
    | Action.signal (Emit.connectionChanged false) => true
    | _ => false

/-- Number of socket close operations in an action list. -/
def countClose (acts : List Action) : Nat :=
  acts.countP fun a =>
    match a with
    | Action.sockClose _ => true
    | _ => false

/-- Number of socket writes in an action list. -/
def countSend (acts : List Action) : Nat :=
  acts.countP fun a =>
    match a with
    | Action.sockSend _ _ => true
    | _ => false

/-! ## Helper lemmas -/

/-- Decoding inverts encoding for lengths that fit in 32 bits. -/
theorem decodeBE32_encodeBE32 (n : Nat) (h : n < 4294967296) :
    decodeBE32 (encodeBE32 n) = n := by
  simp only [encodeBE32, decodeBE32]
  omega

/-- A wire message is 5 bytes of header plus the payload. -/
theorem encodeMsg_length (tag : Nat) (payload : List Nat) :
    (encodeMsg tag payload).length = 5 + payload.length := by
  simp [encodeMsg, encodeBE32]
  omega

/-- When enough bytes have been accumulated, _recv_exact returns them
at once, touching no further event. -/
theorem recvExactAux_done (n : Nat) (data : List Nat) (evs : List RecvEvent)
    (h : n ≤ data.length) : recvExactAux n data evs = some (data, evs) := by
  cases evs with
  | nil => simp [recvExactAux, h]
  | cons e rest => simp [recvExactAux, h]

/-- _recv_exact never returns a non-empty byte string shorter than
requested: any returned value has exactly the requested length or is
empty. -/
theorem recvExactAux_length (evs : List RecvEvent) :
    ∀ (n : Nat) (data res : List Nat) (rest : List RecvEvent),
      data.length ≤ n → recvExactAux n data evs = some (res, rest) →
      res.length = n ∨ res = [] := by
  induction evs with
  | nil =>
    intro n data res rest hd h
    simp only [recvExactAux] at h
    split at h
    next hle =>
      simp only [Option.some.injEq, Prod.mk.injEq] at h
      left
      rw [← h.1]
      omega
    next => cases h
  | cons e rest ih =>
    intro n data res rest2 hd h
    simp only [recvExactAux] at h
    split at h
    next hle =>
      simp only [Option.some.injEq, Prod.mk.injEq] at h
      left
      rw [← h.1]
      omega
    next hgt =>
      split at h
      next => exact ih n data res rest2 hd h
      next =>
        simp only [Option.some.injEq, Prod.mk.injEq] at h
        right
        exact h.1.symm
      next bs =>
        split at h
        next =>
          simp only [Option.some.injEq, Prod.mk.injEq] at h
          right
          exact h.1.symm
        next =>
          split at h
          next =>
            refine ih n (data ++ bs) res rest2 ?_ h
            simp only [List.length_append]
            omega
          next =>
            simp only [Option.some.injEq, Prod.mk.injEq] at h
            left
            rw [← h.1]
            simp only [List.length_append, List.length_take]
            omega

/-- _recv_exact over a stream of non-empty chunks carrying enough bytes
returns exactly the first n of those bytes, independent of the chunking,
and leaves the remaining bytes pending as non-empty chunks; events after
the chunks are never touched. -/
theorem recvExactAux_chunks (gs : List (List Nat)) :
    ∀ (n : Nat) (data : List Nat) (tail : List RecvEvent),
      (∀ c ∈ gs, c ≠ []) → data.length ≤ n →
      n ≤ data.length + gs.flatten.length →
      ∃ gs2 : List (List Nat),
        recvExactAux n data (gs.map RecvEvent.chunk ++ tail) =
          some ((data ++ gs.flatten).take n, gs2.map RecvEvent.chunk ++ tail) ∧
        (∀ c ∈ gs2, c ≠ []) ∧ gs2.flatten = (data ++ gs.flatten).drop n := by
  induction gs with
  | nil =>
    intro n data tail _ hd hl
    simp only [List.flatten_nil, List.length_nil, Nat.add_zero] at hl
    have hn : n = data.length := Nat.le_antisymm hl hd
    refine ⟨[], ?_, by simp, ?_⟩
    · rw [List.map_nil, List.nil_append, recvExactAux_done n data tail hl]
      have : (data ++ ([] : List (List Nat)).flatten).take n = data := by
        simp only [List.flatten_nil, List.append_nil]
        exact List.take_of_length_le (Nat.le_of_eq hn.symm)
      rw [this]
    · have : (data ++ ([] : List (List Nat)).flatten).drop n = [] := by
        simp only [List.flatten_nil, List.append_nil]
        exact List.drop_eq_nil_of_le (Nat.le_of_eq hn.symm)
      rw [this]
      simp
  | cons bs gsr ih =>
    intro n data tail hne hd hl
    have hbs : bs ≠ [] := hne bs (by simp)
    by_cases hfull : n ≤ data.length
    · have hn : n = data.length := Nat.le_antisymm hfull hd
      refine ⟨bs :: gsr, ?_, hne, ?_⟩
      · rw [recvExactAux_done n data _ hfull]
        have : (data ++ (bs :: gsr).flatten).take n = data := by
          rw [hn, List.take_left]
        rw [this]
      · rw [hn, List.drop_left]
    · have hdlen : data.length ≤ n := hd
      simp only [List.map_cons, List.cons_append]
      have hstep :
          recvExactAux n data
            (RecvEvent.chunk bs :: (gsr.map RecvEvent.chunk ++ tail)) =
          if bs.length ≤ n - data.length then
            recvExactAux n (data ++ bs) (gsr.map RecvEvent.chunk ++ tail)
          else
            some (data ++ bs.take (n - data.length),
                  RecvEvent.chunk (bs.drop (n - data.length)) ::
                    (gsr.map RecvEvent.chunk ++ tail)) := by
        simp only [recvExactAux, if_neg hfull, if_neg hbs]
      by_cases hle : bs.length ≤ n - data.length
      · obtain ⟨gs2, h1, h2, h3⟩ :=
          ih n (data ++ bs) tail
            (fun c hc => hne c (by simp [hc]))
            (by simp only [List.length_append]; omega)
            (by
              simp only [List.length_append]
              simp only [List.flatten_cons, List.length_append] at hl
              omega)
        refine ⟨gs2, ?_, h2, ?_⟩
        · rw [hstep, if_pos hle, h1]
          simp [List.append_assoc]
        · rw [h3]
          simp [List.append_assoc]
      · have hklt : n - data.length < bs.length := Nat.lt_of_not_le hle
        have hk0 : n - data.length - bs.length = 0 := by omega
        have htake : (data ++ (bs :: gsr).flatten).take n =
            data ++ bs.take (n - data.length) := by
          rw [List.flatten_cons]
          have t1 : (data ++ (bs ++ gsr.flatten)).take n =
              data.take n ++ (bs ++ gsr.flatten).take (n - data.length) :=
            List.take_append_eq_append_take
          have t2 : (bs ++ gsr.flatten).take (n - data.length) =
              bs.take (n - data.length) ++
                gsr.flatten.take (n - data.length - bs.length) :=
            List.take_append_eq_append_take
          rw [t1, List.take_of_length_le hdlen, t2, hk0, List.take_zero,
            List.append_nil]
        have hdrop : (data ++ (bs :: gsr).flatten).drop n =
            bs.drop (n - data.length) ++ gsr.flatten := by
          rw [List.flatten_cons]
          have t1 : (data ++ (bs ++ gsr.flatten)).drop n =
              data.drop n ++ (bs ++ gsr.flatten).drop (n - data.length) :=
            List.drop_append_eq_append_drop
          have t2 : (bs ++ gsr.flatten).drop (n - data.length) =
              bs.drop (n - data.length) ++
                gsr.flatten.drop (n - data.length - bs.length) :=
            List.drop_append_eq_append_drop
          rw [t1, List.drop_eq_nil_of_le hdlen, List.nil_append, t2, hk0,
            List.drop_zero]
        refine ⟨bs.drop (n - data.length) :: gsr, ?_, ?_, ?_⟩
        · rw [hstep, if_neg hle, htake]
          simp
        · intro c hc
          simp only [List.mem_cons] at hc
          rcases hc with hc | hc
          · subst hc
            intro hnil
            have := List.drop_eq_nil_iff.mp hnil
            omega
          · exact hne c (by simp [hc])
        · rw [List.flatten_cons, hdrop]

/-- A list of non-empty chunks with no bytes is the empty list. -/
theorem eq_nil_of_flatten_nil (gs : List (List Nat))
    (h1 : ∀ c ∈ gs, c ≠ []) (h2 : gs.flatten = []) : gs = [] := by
  cases gs with
  | nil => rfl
  | cons c rest =>
    simp only [List.flatten_cons, List.append_eq_nil] at h2
    exact absurd h2.1 (h1 c (by simp))

/-- The header and payload of a framed message split off the byte
stream. -/
theorem encodeMsg_take_drop (tag : Nat) (payload rb : List Nat) :
    (encodeMsg tag payload ++ rb).take 5 = tag :: encodeBE32 payload.length ∧
    (encodeMsg tag payload ++ rb).drop 5 = payload ++ rb := by
  constructor <;> simp [encodeMsg, encodeBE32]

/-- Reading one message out of a stream of non-empty chunks that starts
with a well-framed message with non-empty payload yields exactly that
tag and payload, independent of the chunk boundaries; the bytes after
the message stay pending as non-empty chunks and the events after the
chunks are untouched. -/
theorem readMessage_chunks (tag : Nat) (payload rb : List Nat)
    (gs : List (List Nat)) (tail : List RecvEvent)
    (hg : ∀ c ∈ gs, c ≠ []) (hp : payload ≠ [])
    (hl : payload.length < 4294967296)
    (hjoin : gs.flatten = encodeMsg tag payload ++ rb) :
    ∃ gs2 : List (List Nat),
      readMessage (gs.map RecvEvent.chunk ++ tail) =
        some (ReadResult.msg tag payload (gs2.map RecvEvent.chunk ++ tail)) ∧
      (∀ c ∈ gs2, c ≠ []) ∧ gs2.flatten = rb := by
  have hflatlen : gs.flatten.length = 5 + payload.length + rb.length := by
    rw [hjoin, List.length_append, encodeMsg_length]
  obtain ⟨gs1, e1, hne1, hj1⟩ :=
    recvExactAux_chunks gs 5 [] tail hg (by simp)
      (by simp only [List.length_nil, Nat.zero_add, hflatlen]; omega)
  have hhdr : ((([] : List Nat) ++ gs.flatten)).take 5 =
      tag :: encodeBE32 payload.length := by
    rw [List.nil_append, hjoin]
    exact (encodeMsg_take_drop tag payload rb).1
  rw [hhdr] at e1
  have hj1flat : gs1.flatten = payload ++ rb := by
    rw [hj1, List.nil_append, hjoin]
    exact (encodeMsg_take_drop tag payload rb).2
  obtain ⟨gs2, e2, hne2, hj2⟩ :=
    recvExactAux_chunks gs1 payload.length [] tail hne1 (by simp)
      (by
        simp only [List.length_nil, Nat.zero_add, hj1flat, List.length_append]
        omega)
  have hpay : ((([] : List Nat) ++ gs1.flatten)).take payload.length =
      payload := by
    rw [List.nil_append, hj1flat, List.take_left]
  rw [hpay] at e2
  have hrb : gs2.flatten = rb := by
    rw [hj2, List.nil_append, hj1flat, List.drop_left]
  refine ⟨gs2, ?_, hne2, hrb⟩
  have hdec : decodeBE32 ((tag :: encodeBE32 payload.length).drop 1) =
      payload.length := by
    rw [List.drop_one, List.tail_cons]
    exact decodeBE32_encodeBE32 payload.length hl
  simp only [readMessage, recvExact, e1, hdec, e2, List.headD_cons]
  simp [hp]

/-- One unfolding of the while-loop body. -/
theorem loopBody_succ (decodeImage decodeJson : List Nat → Option (List Nat))
    (fuel : Nat) (evs : List RecvEvent) :
    loopBody decodeImage decodeJson (fuel + 1) evs =
      match readMessage evs with
      | none => none
      | some (ReadResult.eof rest) => some ([], rest)
      | some (ReadResult.msg tag payload rest) =>
          match loopBody decodeImage decodeJson fuel rest with
          | none => none
          | some (acts, rest2) =>
              some (dispatchMsg decodeImage decodeJson tag payload ++ acts,
                    rest2) := rfl

/-- Message dispatch emits no error_occurred signal. -/
theorem countErr_dispatchMsg (decodeImage decodeJson : List Nat → Option (List Nat))
    (tag : Nat) (payload : List Nat) :
    countErr (dispatchMsg decodeImage decodeJson tag payload) = 0 := by
  simp only [dispatchMsg, handle_frame, handle_telemetry]
  split
  · cases decodeImage payload <;> rfl
  · split
    · cases decodeJson payload <;> rfl
    · rfl

/-- The disconnect sequence emits no error_occurred signal. -/
theorem countErr_disconnect (st : ClientState) :
    countErr (disconnect st).2 = 0 := by
  cases h : st.sock <;> simp [disconnect, h, countErr]

/-- No iteration of the while-loop body emits an error_occurred
signal. -/
theorem countErr_loopBody (decodeImage decodeJson : List Nat → Option (List Nat)) :
    ∀ (fuel : Nat) (evs : List RecvEvent) (acts : List Action)
      (rest : List RecvEvent),
      loopBody decodeImage decodeJson fuel evs = some (acts, rest) →
      countErr acts = 0 := by
  intro fuel
  induction fuel with
  | zero =>
    intro evs acts rest h
    cases h
  | succ f ih =>
    intro evs acts rest h
    rw [loopBody_succ] at h
    cases hrm : readMessage evs with
    | none => rw [hrm] at h; cases h
    | some r =>
      rw [hrm] at h
      cases r with
      | eof rest2 =>
        simp only [Option.some.injEq, Prod.mk.injEq] at h
        rw [← h.1]
        rfl
      | msg tag payload rest2 =>
        dsimp only at h
        cases hlb : loopBody decodeImage decodeJson f rest2 with
        | none => rw [hlb] at h; cases h
        | some pr =>
          rw [hlb] at h
          obtain ⟨acts2, rest3⟩ := pr
          simp only [Option.some.injEq, Prod.mk.injEq] at h
          rw [← h.1]
          simp only [countErr, List.countP_append] at *
          rw [ih rest2 acts2 rest3 hlb]
          have := countErr_dispatchMsg decodeImage decodeJson tag payload
          simp only [countErr] at this
          omega

/-! ## Claim theorems -/

/-- C10: for every requested byte count n and every sequence of
underlying socket read results, _recv_exact returns either exactly n
bytes or the empty byte string, never a non-empty result shorter than
n; and for n = 0 it returns the empty byte string immediately, without
consuming any socket read event. -/
theorem recvExact_all_or_nothing (n : Nat) (evs rest : List RecvEvent)
    (res : List Nat) (h : recvExact n evs = some (res, rest)) :
    (res.length = n ∨ res = []) ∧ recvExact 0 evs = some ([], evs) := by
  constructor
  · exact recvExactAux_length evs n [] res rest (by simp) h
  · cases evs <;> simp [recvExact, recvExactAux]

/-- C10 witness: a concrete 3-byte read. -/
theorem recvExact_all_or_nothing_witness :
    (([1, 2, 3] : List Nat).length = 3 ∨ ([1, 2, 3] : List Nat) = []) ∧
    recvExact 0 [RecvEvent.chunk [1, 2, 3]] =
      some ([], [RecvEvent.chunk [1, 2, 3]]) :=
  recvExact_all_or_nothing 3 [RecvEvent.chunk [1, 2, 3]] [] [1, 2, 3] (by rfl)

/-- C7: send_command on a client that is not connected emits exactly the
one error Not connected, performs no socket write and leaves the state
unchanged. -/
theorem send_command_not_connected (st : ClientState) (cmdBytes : List Nat)
    (sendErr : Option String) (h : is_connected st = false) :
    send_command st cmdBytes sendErr =
      (st, [Action.signal (Emit.errorOccurred "Not connected")]) := by
  simp [send_command, h]

/-- C7 witness: the command mapping with JSON text for a one-entry
dictionary, sent on a freshly initialized client. -/
theorem send_command_not_connected_witness :
    send_command initClient [123, 34, 97, 34, 58, 49, 125] none =
      (initClient, [Action.signal (Emit.errorOccurred "Not connected")]) :=
  send_command_not_connected initClient [123, 34, 97, 34, 58, 49, 125] none
    (by rfl)

/-- C8: send_command on a connected client writes the tag byte COMMAND,
the 4-byte big-endian length of the JSON bytes, then the JSON bytes, in
one single socket write, and that header is 5 bytes long. -/
theorem send_command_frames_output (st : ClientState) (sid : Nat)
    (cmdBytes : List Nat) (hs : st.sock = some sid) (hr : st.running = true)
    (hl : cmdBytes.length < 4294967296) :
    send_command st cmdBytes none =
      (st, [Action.sockSend sid
              ((MessageType.COMMAND :: encodeBE32 cmdBytes.length) ++
                cmdBytes)]) ∧
    (MessageType.COMMAND :: encodeBE32 cmdBytes.length).length = 5 := by
  have hc : is_connected st = true := by
    simp [is_connected, hr, hs]
  constructor
  · simp [send_command, hc, hs, hl, encodeMsg]
  · simp [encodeBE32]

/-- C8 witness: sending the JSON bytes of a one-entry dictionary on a
connected client. -/
theorem send_command_frames_output_witness :
    send_command connectedClient [123, 34, 97, 34, 58, 49, 125] none =
      (connectedClient,
       [Action.sockSend 0
          ((MessageType.COMMAND ::
              encodeBE32 ([123, 34, 97, 34, 58, 49, 125] : List Nat).length) ++
            [123, 34, 97, 34, 58, 49, 125])]) ∧
    (MessageType.COMMAND ::
        encodeBE32 ([123, 34, 97, 34, 58, 49, 125] : List Nat).length).length =
      5 :=
  send_command_frames_output connectedClient 0 [123, 34, 97, 34, 58, 49, 125]
    (by rfl) (by rfl) (by decide)

/-- C3 counterexample: a timed-out connect on a fresh client returns
false, but the socket created for the attempt stays stored (the handle
is not null) and no close is ever performed, contradicting the claim
that the socket is closed and the handle cleared. -/
theorem connect_failure_socket_retained_cex :
    (connect initClient "192.168.4.21" 5000 ConnectOutcome.timeout).1.sock =
      some 0 ∧
    countClose
      (connect initClient "192.168.4.21" 5000 ConnectOutcome.timeout).2.1 = 0 ∧
    (connect initClient "192.168.4.21" 5000 ConnectOutcome.timeout).2.2 =
      false :=
  ⟨rfl, rfl, rfl⟩

/-- C3 (amended): every failing connect returns false, emits exactly one
error, leaves the running flag unchanged (hence is_connected stays false
when the client started disconnected), but stores the freshly created
socket in the handle and never closes it. -/
theorem connect_failure_state (st : ClientState) (host : String) (port : Nat)
    (oc : ConnectOutcome) (hoc : oc ≠ ConnectOutcome.success) :
    (connect st host port oc).2.2 = false ∧
    (connect st host port oc).1.running = st.running ∧
    (connect st host port oc).1.sock = some st.nextId ∧
    countClose (connect st host port oc).2.1 = 0 ∧
    countErr (connect st host port oc).2.1 = 1 ∧
    (st.running = false → is_connected (connect st host port oc).1 = false) := by
  cases oc with
  | success => exact absurd rfl hoc
  | timeout =>
    refine ⟨rfl, rfl, rfl, rfl, rfl, ?_⟩
    intro h
    simp [connect, is_connected, h]
  | refused =>
    refine ⟨rfl, rfl, rfl, rfl, rfl, ?_⟩
    intro h
    simp [connect, is_connected, h]
  | failure m =>
    refine ⟨rfl, rfl, rfl, rfl, rfl, ?_⟩
    intro h
    simp [connect, is_connected, h]

/-- C3 witness: the timed-out connect on a fresh client. -/
theorem connect_failure_state_witness :
    (connect initClient "10.0.0.7" 9000 ConnectOutcome.timeout).2.2 = false ∧
    (connect initClient "10.0.0.7" 9000 ConnectOutcome.timeout).1.running =
      initClient.running ∧
    (connect initClient "10.0.0.7" 9000 ConnectOutcome.timeout).1.sock =
      some initClient.nextId ∧
    countClose
      (connect initClient "10.0.0.7" 9000 ConnectOutcome.timeout).2.1 = 0 ∧
    countErr
      (connect initClient "10.0.0.7" 9000 ConnectOutcome.timeout).2.1 = 1 ∧
    (initClient.running = false →
      is_connected
        (connect initClient "10.0.0.7" 9000 ConnectOutcome.timeout).1 =
        false) :=
  connect_failure_state initClient "10.0.0.7" 9000 ConnectOutcome.timeout
    (by decide)

/-- C4 counterexample: two disconnect calls in a row on a connected
client produce two connection_changed(False) emissions, not exactly
one. -/
theorem disconnect_twice_double_signal_cex :
    countConnFalse
      ((disconnect connectedClient).2 ++
        (disconnect (disconnect connectedClient).1).2) = 2 :=
  rfl

/-- C4 (amended): disconnect is safe to repeat and always leaves
is_connected false with the socket cleared, and the second call closes
no socket, but it is not idempotent in emissions: every call, the
second included, emits its own connection_changed(False), so two calls
produce two notifications. -/
theorem disconnect_twice_effects (st : ClientState) :
    is_connected (disconnect (disconnect st).1).1 = false ∧
    (disconnect (disconnect st).1).1.running = false ∧
    (disconnect (disconnect st).1).1.sock = none ∧
    countConnFalse (disconnect st).2 = 1 ∧
    countConnFalse (disconnect (disconnect st).1).2 = 1 ∧
    countClose (disconnect (disconnect st).1).2 = 0 := by
  cases h : st.sock <;>
    simp [disconnect, h, is_connected, countConnFalse, countClose]

/-- C9 counterexample: a connect invoked while the client already holds
socket 0 closes nothing; the old handle is simply overwritten by the
fresh socket 1. -/
theorem connect_prior_socket_unclosed_cex :
    countClose
      (connect connectedClient "192.168.4.21" 5000
        ConnectOutcome.success).2.1 = 0 ∧
    (connect connectedClient "192.168.4.21" 5000
        ConnectOutcome.success).1.sock = some 1 ∧
    is_connected connectedClient = true :=
  ⟨rfl, rfl, rfl⟩

/-- C9 (amended): connect never closes the previously held socket: no
matter the outcome, the action trace of connect contains no close, and
the stored handle is overwritten with the id of the fresh socket, so the
prior socket is dropped without an explicit close. -/
theorem connect_never_closes_prior (st : ClientState) (sid : Nat)
    (host : String) (port : Nat) (oc : ConnectOutcome)
    (hs : st.sock = some sid) (hr : st.running = true) :
    countClose (connect st host port oc).2.1 = 0 ∧
    (connect st host port oc).1.sock = some st.nextId := by
  cases oc <;> exact ⟨rfl, rfl⟩

/-- C9 witness: reconnect attempt on the connected client. -/
theorem connect_never_closes_prior_witness :
    countClose
      (connect connectedClient "10.0.0.7" 9000 ConnectOutcome.refused).2.1 =
      0 ∧
    (connect connectedClient "10.0.0.7" 9000 ConnectOutcome.refused).1.sock =
      some connectedClient.nextId :=
  connect_never_closes_prior connectedClient 0 "10.0.0.7" 9000
    ConnectOutcome.refused (by rfl) (by rfl)

/-- C1 counterexample: a well-framed TELEMETRY message of payload length
0 is not handed to the telemetry handler even with a decoder that
accepts everything: the loop misreads the empty payload as
end-of-stream and exits, emitting only the disconnect sequence. -/
theorem framing_roundtrip_zero_len_cex :
    runLoop (fun b => some b) (fun b => some b) 5 connectedClient
        [RecvEvent.chunk (encodeMsg MessageType.TELEMETRY [])] =
      some ({ sock := none, running := false, host := "", port := 0,
              nextId := 1 },
            [Action.sockClose 0,
             Action.signal (Emit.connectionChanged false)]) :=
  rfl

/-- C1 (amended): for every tag byte and every non-empty payload whose
length fits the 32-bit length field (covering L = 1, 65535 and
10000000 but not L = 0), encoding to tag, big-endian length, payload
and decoding through the exact-byte-read plus dispatch logic
reproduces the original tag and payload exactly, and the matching
handler receives exactly the payload bytes; for L = 0 the loop instead
treats the empty payload as end-of-stream. -/
theorem framing_roundtrip_pos_len (tag : Nat) (payload : List Nat)
    (htag : tag < 256) (hp : payload ≠ [])
    (hl : payload.length < 4294967296) :
    msgOf (readMessage [RecvEvent.chunk (encodeMsg tag payload)]) =
      some (tag, payload) ∧
    dispatchMsg (fun b => some b) (fun b => some b) MessageType.FRAME
      payload = [Action.signal (Emit.frameReceived payload)] ∧
    dispatchMsg (fun b => some b) (fun b => some b) MessageType.TELEMETRY
      payload = [Action.signal (Emit.telemetryReceived payload)] := by
  refine ⟨?_, rfl, rfl⟩
  obtain ⟨gs2, e, -, -⟩ :=
    readMessage_chunks tag payload [] [encodeMsg tag payload] []
      (by
        intro c hc
        simp only [List.mem_singleton] at hc
        subst hc
        simp [encodeMsg])
      hp hl (by simp)
  simp only [List.map_cons, List.map_nil, List.cons_append,
    List.nil_append, List.append_nil] at e
  rw [e]
  rfl

/-- C1 witness: tag TELEMETRY with the two-byte payload hi. -/
theorem framing_roundtrip_pos_len_witness :
    msgOf (readMessage
        [RecvEvent.chunk (encodeMsg MessageType.TELEMETRY [104, 105])]) =
      some (MessageType.TELEMETRY, [104, 105]) ∧
    dispatchMsg (fun b => some b) (fun b => some b) MessageType.FRAME
      [104, 105] = [Action.signal (Emit.frameReceived [104, 105])] ∧
    dispatchMsg (fun b => some b) (fun b => some b) MessageType.TELEMETRY
      [104, 105] =
      [Action.signal (Emit.telemetryReceived [104, 105])] :=
  framing_roundtrip_pos_len MessageType.TELEMETRY [104, 105] (by decide)
    (by decide) (by decide)

/-- C2 counterexample: with the client running, a socket read that
raises a non-timeout exception makes the loop exit through the graceful
path: the resulting action trace contains no error_occurred emission at
all, not the exactly-one the claim requires. -/
theorem receive_fault_no_error_cex :
    runLoop (fun b => some b) (fun b => some b) 5 connectedClient
        [RecvEvent.fault] =
      some ({ sock := none, running := false, host := "", port := 0,
              nextId := 1 },
            [Action.sockClose 0,
             Action.signal (Emit.connectionChanged false)]) ∧
    countErr [Action.sockClose 0,
              Action.signal (Emit.connectionChanged false)] = 0 :=
  ⟨rfl, rfl⟩

/-- C2 (amended): the receive loop never emits an error_occurred
signal: _recv_exact swallows every non-timeout read exception into the
empty result, which the loop treats exactly like graceful end-of-stream,
so an unrecoverable read error and a peer close are indistinguishable
and neither produces an error notification. -/
theorem receive_loop_never_emits_error
    (decodeImage decodeJson : List Nat → Option (List Nat)) (fuel : Nat)
    (st st2 : ClientState) (evs : List RecvEvent) (acts : List Action)
    (h : runLoop decodeImage decodeJson fuel st evs = some (st2, acts)) :
    countErr acts = 0 := by
  unfold runLoop at h
  split at h
  · cases hlb : loopBody decodeImage decodeJson fuel evs with
    | none => rw [hlb] at h; cases h
    | some pr =>
      rw [hlb] at h
      obtain ⟨acts1, rest⟩ := pr
      dsimp only at h
      simp only [Option.some.injEq, Prod.mk.injEq] at h
      rw [← h.2]
      have h1 := countErr_loopBody decodeImage decodeJson fuel evs acts1 rest hlb
      have h2 := countErr_disconnect st
      simp only [countErr, List.countP_append] at h1 h2 ⊢
      omega
  · simp only [Option.some.injEq, Prod.mk.injEq] at h
    rw [← h.2]
    exact countErr_disconnect st

/-- C2 witness: the loop run on a single faulting read. -/
theorem receive_loop_never_emits_error_witness :
    countErr [Action.sockClose 0,
              Action.signal (Emit.connectionChanged false)] = 0 :=
  receive_loop_never_emits_error (fun b => some b) (fun b => some b) 5
    connectedClient
    { sock := none, running := false, host := "", port := 0, nextId := 1 }
    [RecvEvent.fault]
    [Action.sockClose 0, Action.signal (Emit.connectionChanged false)]
    (by rfl)

/-- C5: a framed message delivered across arbitrarily many non-empty
chunks is reassembled to exactly the same tag and payload as when all
its bytes arrive in one single read. -/
theorem chunked_delivery_reassembly (tag : Nat) (payload : List Nat)
    (cs : List (List Nat)) (htag : tag < 256) (hp : payload ≠ [])
    (hl : payload.length < 4294967296) (hcs : ∀ c ∈ cs, c ≠ [])
    (hjoin : cs.flatten = encodeMsg tag payload) :
    msgOf (readMessage (cs.map RecvEvent.chunk)) = some (tag, payload) ∧
    msgOf (readMessage [RecvEvent.chunk (encodeMsg tag payload)]) =
      some (tag, payload) := by
  constructor
  · obtain ⟨gs2, e, -, -⟩ :=
      readMessage_chunks tag payload [] cs [] hcs hp hl (by simp [hjoin])
    rw [List.append_nil] at e
    rw [e]
    rfl
  · obtain ⟨gs2, e, -, -⟩ :=
      readMessage_chunks tag payload [] [encodeMsg tag payload] []
        (by
          intro c hc
          simp only [List.mem_singleton] at hc
          subst hc
          simp [encodeMsg])
        hp hl (by simp)
    simp only [List.map_cons, List.map_nil, List.cons_append,
      List.nil_append, List.append_nil] at e
    rw [e]
    rfl

/-- C5 witness: the TELEMETRY message with payload h delivered one byte
at a time versus in one read. -/
theorem chunked_delivery_reassembly_witness :
    msgOf (readMessage
        (([[2], [0], [0], [0], [1], [104]] : List (List Nat)).map
          RecvEvent.chunk)) = some (2, [104]) ∧
    msgOf (readMessage [RecvEvent.chunk (encodeMsg 2 [104])]) =
      some (2, [104]) :=
  chunked_delivery_reassembly 2 [104] [[2], [0], [0], [0], [1], [104]]
    (by decide) (by decide) (by decide) (by decide) (by decide)

/-- C6 counterexample: a well-framed DETECTION message with empty
payload followed by a valid TELEMETRY message: the loop exits at the
empty payload, so the next well-formed message is never dispatched,
contradicting the claim for messages of payload length 0. -/
theorem empty_payload_terminates_loop_cex :
    runLoop (fun b => some b) (fun b => some b) 5 connectedClient
        [RecvEvent.chunk (encodeMsg MessageType.DETECTION [] ++
            encodeMsg MessageType.TELEMETRY [116])] =
      some ({ sock := none, running := false, host := "", port := 0,
              nextId := 1 },
            [Action.sockClose 0,
             Action.signal (Emit.connectionChanged false)]) :=
  rfl

/-- C6 (amended): for every well-framed message with non-empty payload
whose payload fails to decode or whose tag is neither FRAME nor
TELEMETRY, the message is dropped with no frame or telemetry emission,
the loop keeps running and the next well-formed message in the stream
is still dispatched; the run below processes the bad message, then the
good TELEMETRY message, then exits gracefully at the peer close. -/
theorem bad_payload_isolation
    (decodeImage decodeJson : List Nat → Option (List Nat)) (t1 t2 : Nat)
    (p1 p2 d2 : List Nat) (hp1 : p1 ≠ []) (hl1 : p1.length < 4294967296)
    (hp2 : p2 ≠ []) (hl2 : p2.length < 4294967296)
    (hbad : (t1 ≠ MessageType.FRAME ∧ t1 ≠ MessageType.TELEMETRY) ∨
            (t1 = MessageType.FRAME ∧ decodeImage p1 = none) ∨
            (t1 = MessageType.TELEMETRY ∧ decodeJson p1 = none))
    (ht2 : t2 = MessageType.TELEMETRY) (hd2 : decodeJson p2 = some d2) :
    runLoop decodeImage decodeJson 3 connectedClient
        [RecvEvent.chunk (encodeMsg t1 p1 ++ encodeMsg t2 p2),
         RecvEvent.chunk []] =
      some ({ sock := none, running := false, host := "", port := 0,
              nextId := 1 },
            [Action.signal (Emit.telemetryReceived d2), Action.sockClose 0,
             Action.signal (Emit.connectionChanged false)]) := by
  have hdisp1 : dispatchMsg decodeImage decodeJson t1 p1 = [] := by
    rcases hbad with ⟨h1, h2⟩ | ⟨h1, h2⟩ | ⟨h1, h2⟩
    · simp [dispatchMsg, h1, h2]
    · subst h1
      simp [dispatchMsg, handle_frame, h2]
    · subst h1
      simp [dispatchMsg, MessageType.TELEMETRY, MessageType.FRAME,
        handle_telemetry, h2]
  have hdisp2 : dispatchMsg decodeImage decodeJson t2 p2 =
      [Action.signal (Emit.telemetryReceived d2)] := by
    subst ht2
    simp [dispatchMsg, MessageType.TELEMETRY, MessageType.FRAME,
      handle_telemetry, hd2]
  obtain ⟨gs1, e1, hne1, hj1⟩ :=
    readMessage_chunks t1 p1 (encodeMsg t2 p2)
      [encodeMsg t1 p1 ++ encodeMsg t2 p2] [RecvEvent.chunk []]
      (by
        intro c hc
        simp only [List.mem_singleton] at hc
        subst hc
        simp [encodeMsg])
      hp1 hl1 (by simp)
  simp only [List.map_cons, List.map_nil, List.cons_append,
    List.nil_append] at e1
  obtain ⟨gs2, e2, hne2, hj2⟩ :=
    readMessage_chunks t2 p2 [] gs1 [RecvEvent.chunk []] hne1 hp2 hl2
      (by rw [hj1]; simp)
  have hgs2 : gs2 = [] := eq_nil_of_flatten_nil gs2 hne2 hj2
  subst hgs2
  simp only [List.map_nil, List.nil_append] at e2
  have e3 : readMessage [RecvEvent.chunk []] = some (ReadResult.eof []) := rfl
  have hb1 : loopBody decodeImage decodeJson 1 [RecvEvent.chunk []] =
      some ([], []) := by
    have h := loopBody_succ decodeImage decodeJson 0 [RecvEvent.chunk []]
    rw [e3] at h
    exact h
  have hb2 : loopBody decodeImage decodeJson 2
      (gs1.map RecvEvent.chunk ++ [RecvEvent.chunk []]) =
      some ([Action.signal (Emit.telemetryReceived d2)], []) := by
    have h := loopBody_succ decodeImage decodeJson 1
      (gs1.map RecvEvent.chunk ++ [RecvEvent.chunk []])
    rw [e2] at h
    dsimp only at h
    rw [hb1] at h
    simp only [hdisp2, List.append_nil] at h
    exact h
  have hb3 : loopBody decodeImage decodeJson 3
      [RecvEvent.chunk (encodeMsg t1 p1 ++ encodeMsg t2 p2),
       RecvEvent.chunk []] =
      some ([Action.signal (Emit.telemetryReceived d2)], []) := by
    have h := loopBody_succ decodeImage decodeJson 2
      [RecvEvent.chunk (encodeMsg t1 p1 ++ encodeMsg t2 p2),
       RecvEvent.chunk []]
    rw [e1] at h
    dsimp only at h
    rw [hb2] at h
    simp only [hdisp1, List.nil_append] at h
    exact h
  simp only [runLoop, connectedClient, hb3]
  rfl

/-- C6 witness: DETECTION tag with one-byte payload followed by a valid
one-byte TELEMETRY message, with a JSON decoder accepting exactly that
payload. -/
theorem bad_payload_isolation_witness :
    runLoop (fun _ => none)
        (fun p => if p = [116] then some [116] else none) 3 connectedClient
        [RecvEvent.chunk (encodeMsg MessageType.DETECTION [9] ++
            encodeMsg MessageType.TELEMETRY [116]),
         RecvEvent.chunk []] =
      some ({ sock := none, running := false, host := "", port := 0,
              nextId := 1 },
            [Action.signal (Emit.telemetryReceived [116]),
             Action.sockClose 0,
             Action.signal (Emit.connectionChanged false)]) :=
  bad_payload_isolation (fun _ => none)
    (fun p => if p = [116] then some [116] else none)
    MessageType.DETECTION MessageType.TELEMETRY [9] [116] [116]
    (by decide) (by decide) (by decide) (by decide)
    (Or.inl ⟨by decide, by decide⟩) rfl (by simp)

end SiraConsole
